import Mathlib

/-!
# Verification of the QR session bot (src/main.py)

Shallow embedding of the program's two stateful components and its message
dispatch pipeline:

* `WhiteListManager` (allow-list with JSON persistence) — embedded as
  `WLState` with `load_whitelist`, `save_whitelist`, `is_allowed`,
  `add_user`, `remove_user`, `get_all_users`.
* `WorkingSessionManager` (QR session lifecycle) — embedded as
  `ManagerState` with `create_qr_session`, `start_qr_monitoring` /
  `monitorFinish`, `cleanup_session`, and `cmd_check`.
* the aiogram message pipeline (`whitelist_middleware` plus the command
  handlers) — embedded as `process_message`.

Identities, chat-message handles, connection handles and tickets are opaque
naturals.  External effects (sending messages, awaiting the ticket, the
settling sleep, disconnecting a client) are recorded in an explicit `Action`
trace on the state.  Message text is modelled as `List Char` (a Python
`str`), and the parsing the code performs on it is translated directly.
-/

namespace Ses

/-! ## Association-list dictionaries (Python `dict` keyed by user id) -/

/-- Lookup in a Python dict modelled as an association list
(`d[k]` / `k in d`). -/
def dictGet (u : Nat) : List (Nat × α) → Option α
  | [] => none
  | p :: rest => if p.1 = u then some p.2 else dictGet u rest

/-- `del d[k]` (and, extensionally, the absence of key `k`):
remove every binding of `u`. -/
def dictErase (u : Nat) (l : List (Nat × α)) : List (Nat × α) :=
  l.filter (fun p => p.1 != u)

/-- `d[k] = v`: bind `u` to `v`, displacing any previous binding. -/
def dictSet (u : Nat) (v : α) (l : List (Nat × α)) : List (Nat × α) :=
  dictErase u l ++ [(u, v)]

/-! ## Access Control Gate: `WhiteListManager` (src/main.py lines 44–96) -/

/-- Python `set(list)` (src/main.py line 57): membership-deduplicating
left fold.  The allow-list set is modelled as a duplicate-free `List Nat`. -/
def pySet (l : List Nat) : List Nat :=
  l.foldl (fun acc x => if x ∈ acc then acc else acc ++ [x]) []

/-- The observable states of the JSON backing store `whitelist.json` at
load time: absent, unreadable/corrupt (`json.load` or the dict access
raises), or readable with a stored `users` list. -/
inductive Store
  | missing
  | corrupt
  | valid (users : List Nat)

/-- State of `WhiteListManager`: the in-memory set plus the list of
persistence writes attempted so far (each write rewrites the full member
list, src/main.py lines 66–72; a failing write is swallowed by the
`try/except` there, so a write is recorded whether or not it succeeds). -/
structure WLState where
  whitelist : List Nat
  writes : List (List Nat)
deriving Repr, DecidableEq

/-- `save_whitelist` (src/main.py lines 66–72): rewrite the whole store
with the current member list. -/
def save_whitelist (st : WLState) : WLState :=
  { st with writes := st.writes ++ [st.whitelist] }

/-- `load_whitelist` (src/main.py lines 51–64), run at construction with no
writes yet.  File present and readable: the set of the stored list.  File
absent: empty set, and `save_whitelist` is called at once.  Load failure
(`except` branch): empty set, and nothing else. -/
def load_whitelist (s : Store) : WLState :=
  match s with
  | Store.valid users => { whitelist := pySet users, writes := [] }
  | Store.missing => save_whitelist { whitelist := [], writes := [] }
  | Store.corrupt => { whitelist := [], writes := [] }

/-- `is_allowed` (src/main.py lines 74–76): membership test. -/
def is_allowed (st : WLState) (user_id : Nat) : Bool :=
  user_id ∈ st.whitelist

/-- `add_user` (src/main.py lines 78–84): insert then persist if new,
otherwise report `False` with no write. -/
def add_user (st : WLState) (user_id : Nat) : WLState × Bool :=
  if user_id ∈ st.whitelist then (st, false)
  else (save_whitelist { st with whitelist := st.whitelist ++ [user_id] }, true)

/-- `remove_user` (src/main.py lines 86–92): remove then persist if
present, otherwise report `False` with no write. -/
def remove_user (st : WLState) (user_id : Nat) : WLState × Bool :=
  if user_id ∈ st.whitelist then
    (save_whitelist { st with whitelist := st.whitelist.erase user_id }, true)
  else (st, false)

/-- `get_all_users` (src/main.py lines 94–96): the members in ascending
order. -/
def get_all_users (st : WLState) : List Nat :=
  st.whitelist.insertionSort (· ≤ ·)

/-! ## Session Lifecycle Manager: `WorkingSessionManager`
(src/main.py lines 110–226) -/

/-- One entry of `active_sessions` (src/main.py lines 146–151): the
connection handle (`client`), the ticket (`qr_login`), the creation
timestamp and the chat message used as delivery target. -/
structure SessionRecord where
  client : Nat
  qrLogin : Nat
  createdAt : Nat
  message : Nat
deriving Repr, DecidableEq

/-- The user-visible messages the monitoring routine can produce.  Session
strings are identified by the connection they were exported from. -/
inductive Reply
  | waitingScan
  | scannedChecking
  | authIncomplete
  | authorizedCreating
  | sessionDoc (sessionString : Nat)
  | sessionStr (sessionString : Nat)
  | timeoutMsg
  | errorMsg
deriving Repr, DecidableEq

/-- Externally visible actions, recorded in order. -/
inductive Action
  | send (target : Nat) (r : Reply)
  | editStatus (r : Reply)
  | waitForTicket (timeoutSecs : Nat)
  | sleepSecs (n : Nat)
  | checkAuthorized
  | disconnectClient (client : Nat)
deriving Repr, DecidableEq

/-- State of `WorkingSessionManager` (src/main.py lines 111–113) together
with the trace of external actions performed so far. -/
structure ManagerState where
  active_sessions : List (Nat × SessionRecord)
  user_messages : List (Nat × Nat)
  trace : List Action
deriving Repr, DecidableEq

/-- `client.disconnect()` as seen by a caller: it may raise. -/
def disconnect (fails : Bool) : Except Unit Unit :=
  if fails then Except.error () else Except.ok ()

/-- `cleanup_session` (src/main.py lines 216–226): if the owner has a
record, call `disconnect` on its client — a raise is swallowed by the bare
`except: pass`, so both outcomes continue identically — and delete the
record; then delete the owner's `user_messages` entry if present. -/
def cleanup_session (fails : Bool) (st : ManagerState) (user_id : Nat) :
    ManagerState :=
  let st1 :=
    match dictGet user_id st.active_sessions with
    | some r =>
      match disconnect fails with
      | Except.ok _ =>
        { st with trace := st.trace ++ [Action.disconnectClient r.client],
                  active_sessions := dictErase user_id st.active_sessions }
      | Except.error _ =>
        { st with trace := st.trace ++ [Action.disconnectClient r.client],
                  active_sessions := dictErase user_id st.active_sessions }
    | none => st
  { st1 with user_messages := dictErase user_id st1.user_messages }

/-- `create_qr_session` (src/main.py lines 115–159).  If the owner already
has a record, its client is disconnected first (the raise of a failing
disconnect is swallowed; both outcomes continue identically) — the record
itself is not deleted.  The random device profile only decorates the new
connection's metadata and is not part of the modelled state.  `handshakeOk`
tells whether `connect()`/`qr_login()` succeed; on failure the enclosing
`except` returns `False` with the state as it stands.  On success the new
record (client `client`, ticket `ticket`, timestamp `now`, delivery target
`msg`) is bound to the owner, displacing any previous binding, and the
owner's `user_messages` entry is set. -/
def create_qr_session (st : ManagerState) (user_id msg client ticket now : Nat)
    (oldDisconnectFails : Bool) (handshakeOk : Bool) : ManagerState × Bool :=
  let st1 :=
    match dictGet user_id st.active_sessions with
    | some r =>
      match disconnect oldDisconnectFails with
      | Except.ok _ =>
        { st with trace := st.trace ++ [Action.disconnectClient r.client] }
      | Except.error _ =>
        { st with trace := st.trace ++ [Action.disconnectClient r.client] }
    | none => st
  if handshakeOk then
    ({ st1 with
        active_sessions :=
          dictSet user_id ⟨client, ticket, now, msg⟩ st1.active_sessions,
        user_messages := dictSet user_id msg st1.user_messages }, true)
  else (st1, false)

/-- The `timeout=120` of `asyncio.wait_for` (src/main.py line 174). -/
def qrWaitTimeoutSecs : Nat := 120

/-- The `asyncio.sleep(3)` settling delay (src/main.py line 178). -/
def settlingDelaySecs : Nat := 3

/-- The ways the external waits of one monitoring run can turn out:
the 120 s wait times out; the ticket resolves and the authorization
re-check reports `authorized` (after which exporting or delivering the
session may raise, `deliveryFails`); or an unexpected exception is raised
during the wait. -/
inductive MonitorOutcome
  | timeout
  | resolved (authorized : Bool) (deliveryFails : Bool)
  | unexpectedError

/-- The actions of the `try/except` body of `start_qr_monitoring`
(src/main.py lines 169–212) given the captured record `data` and the
outcome of the external waits.  The timeout and generic-error handlers
send through the *current* `user_messages` entry, guarded by membership;
the delivery path sends through the captured `data.message`. -/
def monitorBody (st : ManagerState) (user_id : Nat) (data : SessionRecord)
    (oc : MonitorOutcome) : List Action :=
  match oc with
  | MonitorOutcome.timeout =>
    [Action.send data.message Reply.waitingScan,
     Action.waitForTicket qrWaitTimeoutSecs] ++
    (match dictGet user_id st.user_messages with
     | some m => [Action.send m Reply.timeoutMsg]
     | none => [])
  | MonitorOutcome.resolved authorized deliveryFails =>
    [Action.send data.message Reply.waitingScan,
     Action.waitForTicket qrWaitTimeoutSecs,
     Action.editStatus Reply.scannedChecking,
     Action.sleepSecs settlingDelaySecs,
     Action.checkAuthorized] ++
    (if authorized then
      [Action.editStatus Reply.authorizedCreating] ++
      (if deliveryFails then
        (match dictGet user_id st.user_messages with
         | some m => [Action.send m Reply.errorMsg]
         | none => [])
       else
        [Action.send data.message (Reply.sessionDoc data.client),
         Action.send data.message (Reply.sessionStr data.client)])
     else
      [Action.editStatus Reply.authIncomplete])
  | MonitorOutcome.unexpectedError =>
    [Action.send data.message Reply.waitingScan] ++
    (match dictGet user_id st.user_messages with
     | some m => [Action.send m Reply.errorMsg]
     | none => [])

/-- The tail of `start_qr_monitoring` from the point where the task wakes:
run the `try/except` body on the state at wake time with the `data`
captured when the task started, then — `finally` — run `cleanup_session`
on the current state. -/
def monitorFinish (st : ManagerState) (user_id : Nat) (data : SessionRecord)
    (oc : MonitorOutcome) (cleanupDisconnectFails : Bool) : ManagerState :=
  cleanup_session cleanupDisconnectFails
    { st with trace := st.trace ++ monitorBody st user_id data oc } user_id

/-- `start_qr_monitoring` (src/main.py lines 161–214) run without
interleaving: return silently if the owner has no record (lines 163–164),
otherwise capture `data` and run the monitoring body and the `finally`
cleanup on the same state. -/
def start_qr_monitoring (st : ManagerState) (user_id : Nat)
    (oc : MonitorOutcome) (cleanupDisconnectFails : Bool) : ManagerState :=
  match dictGet user_id st.active_sessions with
  | none => st
  | some data => monitorFinish st user_id data oc cleanupDisconnectFails

/-- The three replies of `cmd_check` (src/main.py lines 405–419). -/
inductive CheckReply
  | noAccess
  | active (elapsedSecs : Nat)
  | noSession
deriving Repr, DecidableEq

/-- `cmd_check` (src/main.py lines 405–419): allow-list gate, then report
elapsed seconds if a record exists, else "no active session". -/
def cmd_check (wl : WLState) (mgr : ManagerState) (user_id now : Nat) :
    CheckReply :=
  if is_allowed wl user_id then
    match dictGet user_id mgr.active_sessions with
    | some r => CheckReply.active (now - r.createdAt)
    | none => CheckReply.noSession
  else CheckReply.noAccess

/-! ## Message dispatch: `whitelist_middleware` and the command handlers
(src/main.py lines 231–466) -/

/-- The first space-delimited chunk: Python `s.split(' ')[0]`. -/
def takeUntilSpace : List Char → List Char
  | [] => []
  | c :: cs => if c = ' ' then [] else c :: takeUntilSpace cs

/-- The lowercased command name of a slash message —
`event.text[1:].split(' ')[0].lower()` (src/main.py line 241) — or `none`
for empty or non-slash text.  Handler selection is modelled on the same
token (the `Command(...)` filters match the same command names). -/
def commandOf (text : List Char) : Option (List Char) :=
  match text with
  | '/' :: rest => some ((takeUntilSpace rest).map Char.toLower)
  | _ => none

/-- Python `s.split(' ')`, keeping empty chunks. -/
def splitOnSpace : List Char → List (List Char)
  | [] => [[]]
  | c :: cs =>
    match splitOnSpace cs with
    | t :: ts => if c = ' ' then [] :: t :: ts else (c :: t) :: ts
    | [] => if c = ' ' then [[], []] else [[c]]

/-- Python `s.split()` with whitespace modelled as the space character:
split and drop empty chunks (used by `/add` and `/remove` to read their
argument, src/main.py lines 363 and 388). -/
def pySplitWs (text : List Char) : List (List Char) :=
  (splitOnSpace text).filter (fun t => t != [])

/-- Python `int(s)` on a command argument, restricted to the naturals the
model uses for identities: all-digit text parses, anything else raises
`ValueError`. -/
def parseNat (s : List Char) : Option Nat :=
  if s ≠ [] ∧ s.all Char.isDigit then
    some (s.foldl (fun n c => n * 10 + (c.toNat - 48)) 0)
  else none

/-- `is_admin` (src/main.py lines 330–332). -/
def is_admin (adminId user_id : Nat) : Bool :=
  user_id = adminId

/-- Everything a message handler can answer. -/
inductive BotReply
  | accessDenied
  | startDenied
  | startWelcome
  | adminOnly
  | whitelistEmpty
  | whitelistList (users : List Nat)
  | addUsage
  | addOk (u : Nat)
  | addAlready (u : Nat)
  | removeUsage
  | removeOk (u : Nat)
  | removeAbsent (u : Nat)
  | badId
  | checkReply (r : CheckReply)
  | debugInfo (client : Nat)
  | debugNoSession
  | helpText (adminExtra : Bool)
deriving Repr, DecidableEq

/-- Outcome of dispatching one incoming message: the allow-list state, the
session-manager state (no message handler mutates it — sessions are created
only by the `method_qr` callback), and the replies sent. -/
structure DispatchResult where
  wl : WLState
  mgr : ManagerState
  replies : List BotReply
deriving DecidableEq

/-- The command handlers (src/main.py lines 256–466), selected by the
command token: `cmd_start`, `cmd_whitelist`, `cmd_add_user`,
`cmd_remove_user`, `cmd_check`, `cmd_debug`, `cmd_help`.  A message that
matches no handler gets no reply. -/
def handleCommand (adminId : Nat) (wl : WLState) (mgr : ManagerState)
    (user_id : Nat) (text : List Char) (now : Nat) : DispatchResult :=
  match commandOf text with
  | none => ⟨wl, mgr, []⟩
  | some cmd =>
    if cmd = "start".toList then
      if is_allowed wl user_id then ⟨wl, mgr, [BotReply.startWelcome]⟩
      else ⟨wl, mgr, [BotReply.startDenied]⟩
    else if cmd = "whitelist".toList then
      if is_admin adminId user_id then
        if get_all_users wl = [] then ⟨wl, mgr, [BotReply.whitelistEmpty]⟩
        else ⟨wl, mgr, [BotReply.whitelistList (get_all_users wl)]⟩
      else ⟨wl, mgr, [BotReply.adminOnly]⟩
    else if cmd = "add".toList then
      if is_admin adminId user_id then
        match pySplitWs text with
        | _ :: arg :: _ =>
          match parseNat arg with
          | some target =>
            let res := add_user wl target
            if res.2 then ⟨res.1, mgr, [BotReply.addOk target]⟩
            else ⟨res.1, mgr, [BotReply.addAlready target]⟩
          | none => ⟨wl, mgr, [BotReply.badId]⟩
        | _ => ⟨wl, mgr, [BotReply.addUsage]⟩
      else ⟨wl, mgr, [BotReply.adminOnly]⟩
    else if cmd = "remove".toList then
      if is_admin adminId user_id then
        match pySplitWs text with
        | _ :: arg :: _ =>
          match parseNat arg with
          | some target =>
            let res := remove_user wl target
            if res.2 then ⟨res.1, mgr, [BotReply.removeOk target]⟩
            else ⟨res.1, mgr, [BotReply.removeAbsent target]⟩
          | none => ⟨wl, mgr, [BotReply.badId]⟩
        | _ => ⟨wl, mgr, [BotReply.removeUsage]⟩
      else ⟨wl, mgr, [BotReply.adminOnly]⟩
    else if cmd = "check".toList then
      ⟨wl, mgr, [BotReply.checkReply (cmd_check wl mgr user_id now)]⟩
    else if cmd = "debug".toList then
      if is_admin adminId user_id then
        match dictGet user_id mgr.active_sessions with
        | some r => ⟨wl, mgr, [BotReply.debugInfo r.client]⟩
        | none => ⟨wl, mgr, [BotReply.debugNoSession]⟩
      else ⟨wl, mgr, [BotReply.adminOnly]⟩
    else if cmd = "help".toList then
      ⟨wl, mgr, [BotReply.helpText (is_admin adminId user_id)]⟩
    else ⟨wl, mgr, []⟩

/-- The public-command test of `whitelist_middleware`
(src/main.py lines 237–243). -/
def is_public_command (text : List Char) : Bool :=
  match commandOf text with
  | some cmd => cmd = "start".toList ∨ cmd = "help".toList
  | none => false

/-- `whitelist_middleware` (src/main.py lines 231–254) composed with the
handlers: pass public commands straight through; otherwise require
allow-list membership, answering the access-denied message and stopping
when it is missing. -/
def process_message (adminId : Nat) (wl : WLState) (mgr : ManagerState)
    (user_id : Nat) (text : List Char) (now : Nat) : DispatchResult :=
  if is_public_command text then
    handleCommand adminId wl mgr user_id text now
  else if is_allowed wl user_id then
    handleCommand adminId wl mgr user_id text now
  else ⟨wl, mgr, [BotReply.accessDenied]⟩

/-- How many times `disconnect` has been called on connection `c`. -/
def disconnectCount (c : Nat) : List Action → Nat
  | [] => 0
  | Action.disconnectClient c2 :: rest =>
    (if c2 = c then 1 else 0) + disconnectCount c rest
  | _ :: rest => disconnectCount c rest

/-- How many credential-material sends (the session document and the
inline session string) a trace contains. -/
def credentialCount : List Action → Nat
  | [] => 0
  | Action.send _ (Reply.sessionDoc _) :: rest => credentialCount rest + 1
  | Action.send _ (Reply.sessionStr _) :: rest => credentialCount rest + 1
  | _ :: rest => credentialCount rest

/-! ## Dictionary lemmas -/

theorem mem_dictErase_ne {α : Type} (u : Nat) (l : List (Nat × α)) :
    ∀ p ∈ dictErase u l, p.1 ≠ u := by
  intro p hp
  have h := List.of_mem_filter hp
  simpa using h

theorem dictGet_append_right {α : Type} (u : Nat) (l1 l2 : List (Nat × α))
    (h : ∀ p ∈ l1, p.1 ≠ u) : dictGet u (l1 ++ l2) = dictGet u l2 := by
  induction l1 with
  | nil => rfl
  | cons p rest ih =>
    simp only [List.cons_append, dictGet]
    rw [if_neg (h p (by simp))]
    exact ih fun q hq => h q (by simp [hq])

theorem dictGet_dictSet_self {α : Type} (u : Nat) (v : α)
    (l : List (Nat × α)) : dictGet u (dictSet u v l) = some v := by
  rw [dictSet, dictGet_append_right u _ _ (mem_dictErase_ne u l)]
  simp [dictGet]

theorem dictGet_dictErase_self {α : Type} (u : Nat) (l : List (Nat × α)) :
    dictGet u (dictErase u l) = none := by
  have h := dictGet_append_right u (dictErase u l) [] (mem_dictErase_ne u l)
  simpa using h

theorem dictErase_dictErase {α : Type} (u : Nat) (l : List (Nat × α)) :
    dictErase u (dictErase u l) = dictErase u l := by
  simp only [dictErase, List.filter_filter]
  congr 1
  funext p
  cases h : p.1 != u <;> simp [h]

theorem dictErase_of_get_none {α : Type} (u : Nat) (l : List (Nat × α))
    (h : dictGet u l = none) : dictErase u l = l := by
  induction l with
  | nil => rfl
  | cons p rest ih =>
    simp only [dictGet] at h
    by_cases hp : p.1 = u
    · simp [hp] at h
    · rw [if_neg hp] at h
      have hcons : dictErase u (p :: rest) = p :: dictErase u rest := by
        simp [dictErase, List.filter_cons, hp]
      rw [hcons, ih h]

theorem managerState_eq {a b : ManagerState}
    (h1 : a.active_sessions = b.active_sessions)
    (h2 : a.user_messages = b.user_messages)
    (h3 : a.trace = b.trace) : a = b := by
  cases a; cases b; simp_all

/-! ## Field characterizations of `cleanup_session` -/

theorem cleanup_session_active_sessions (f : Bool) (st : ManagerState)
    (u : Nat) :
    (cleanup_session f st u).active_sessions
      = dictErase u st.active_sessions := by
  cases h : dictGet u st.active_sessions with
  | none =>
    cases f <;>
      simp [cleanup_session, h, disconnect, dictErase_of_get_none u _ h]
  | some r => cases f <;> simp [cleanup_session, h, disconnect]

theorem cleanup_session_user_messages (f : Bool) (st : ManagerState)
    (u : Nat) :
    (cleanup_session f st u).user_messages
      = dictErase u st.user_messages := by
  cases h : dictGet u st.active_sessions with
  | none => cases f <;> simp [cleanup_session, h, disconnect]
  | some r => cases f <;> simp [cleanup_session, h, disconnect]

theorem cleanup_session_trace (f : Bool) (st : ManagerState) (u : Nat) :
    (cleanup_session f st u).trace = st.trace ++
      (match dictGet u st.active_sessions with
       | some r => [Action.disconnectClient r.client]
       | none => []) := by
  cases h : dictGet u st.active_sessions with
  | none => cases f <;> simp [cleanup_session, h, disconnect]
  | some r => cases f <;> simp [cleanup_session, h, disconnect]

end Ses

namespace Ses

/-! ## C4: behaviour of `load_whitelist` on a failing load -/

/-- C4 counterexample: the claim says a fresh store is written immediately
after a failed (corrupt/unreadable) load; in the code the `except` branch
only falls back to the empty set — no write is performed. -/
theorem c4_corrupt_load_writes_nothing :
    (load_whitelist Store.corrupt).whitelist = []
    ∧ (load_whitelist Store.corrupt).writes = [] :=
  ⟨rfl, rfl⟩

/-- C4 amended: a failed load is non-fatal and falls back to the empty set
but writes no fresh store; a fresh store is written immediately only when
the backing file is absent. -/
theorem c4_load_failure_fallback :
    (load_whitelist Store.corrupt).whitelist = []
    ∧ (load_whitelist Store.corrupt).writes = []
    ∧ (load_whitelist Store.missing).whitelist = []
    ∧ (load_whitelist Store.missing).writes = [[]] :=
  ⟨rfl, rfl, rfl, rfl⟩

/-! ## C8: allow-list round trip -/

/-- C8: adding makes `is_allowed` true; removing makes it false; re-adding
an already-present identity returns `false` and performs no persistence
write; a newly-inserting add returns `true` and appends exactly one
persistence write of the full member list. -/
theorem c8_allowlist_roundtrip (st : WLState) (x : Nat)
    (hnd : st.whitelist.Nodup) :
    is_allowed (add_user st x).1 x = true
    ∧ is_allowed (remove_user st x).1 x = false
    ∧ (x ∈ st.whitelist → (add_user st x).2 = false
        ∧ (add_user st x).1 = st)
    ∧ (x ∉ st.whitelist → (add_user st x).2 = true
        ∧ (add_user st x).1.writes = st.writes ++ [st.whitelist ++ [x]]) := by
  refine ⟨?_, ?_, ?_, ?_⟩
  · by_cases hx : x ∈ st.whitelist
    · simp [add_user, hx, is_allowed]
    · simp [add_user, hx, is_allowed, save_whitelist]
  · by_cases hx : x ∈ st.whitelist
    · have hne : x ∉ st.whitelist.erase x := hnd.not_mem_erase
      simp [remove_user, hx, is_allowed, save_whitelist, hne]
    · simp [remove_user, hx, is_allowed]
  · intro hx
    simp [add_user, hx]
  · intro hx
    simp [add_user, hx, save_whitelist]

/-- C8 witness at a concrete state. -/
theorem c8_allowlist_roundtrip_witness :
    ([3, 7] : List Nat).Nodup
    ∧ is_allowed (add_user ⟨[3, 7], []⟩ 5).1 5 = true
    ∧ is_allowed (remove_user ⟨[3, 7], []⟩ 5).1 5 = false :=
  ⟨by decide, (c8_allowlist_roundtrip ⟨[3, 7], []⟩ 5 (by decide)).1,
    (c8_allowlist_roundtrip ⟨[3, 7], []⟩ 5 (by decide)).2.1⟩

/-! ## C9: `cleanup_session` is total and idempotent -/

/-- C9: cleanup never raises — a failing disconnect is swallowed, for any
owner (also one with no record) the call is a total function — and
afterwards the owner is absent from both the session table and the
per-user message map; running it again (with any disconnect outcome)
changes nothing. -/
theorem c9_cleanup_total_idempotent (st : ManagerState) (u : Nat)
    (f1 f2 : Bool) :
    dictGet u (cleanup_session f1 st u).active_sessions = none
    ∧ dictGet u (cleanup_session f1 st u).user_messages = none
    ∧ cleanup_session f2 (cleanup_session f1 st u) u
        = cleanup_session f1 st u := by
  have hs : dictGet u (cleanup_session f1 st u).active_sessions = none := by
    rw [cleanup_session_active_sessions]
    exact dictGet_dictErase_self u _
  have hm : dictGet u (cleanup_session f1 st u).user_messages = none := by
    rw [cleanup_session_user_messages]
    exact dictGet_dictErase_self u _
  refine ⟨hs, hm, managerState_eq ?_ ?_ ?_⟩
  · rw [cleanup_session_active_sessions, cleanup_session_active_sessions]
    exact dictErase_dictErase u _
  · rw [cleanup_session_user_messages, cleanup_session_user_messages]
    exact dictErase_dictErase u _
  · rw [cleanup_session_trace f2, hs]
    simp

/-! ## C10: loading a store with duplicates still yields a set -/

theorem pySet_nodup (l : List Nat) : (pySet l).Nodup := by
  have h : ∀ acc : List Nat, acc.Nodup →
      (l.foldl (fun acc x => if x ∈ acc then acc else acc ++ [x]) acc).Nodup := by
    induction l with
    | nil => intro acc hacc; simpa using hacc
    | cons x rest ih =>
      intro acc hacc
      simp only [List.foldl_cons]
      by_cases hx : x ∈ acc
      · rw [if_pos hx]; exact ih acc hacc
      · rw [if_neg hx]
        refine ih _ (List.Nodup.append hacc (List.nodup_singleton x) ?_)
        intro a ha hax
        exact hx (by simpa [List.mem_singleton.mp hax] using ha)
  exact h [] List.nodup_nil

/-- C10: after loading a backing store whose stored user list contains
duplicates, every identity appears at most once in the in-memory
allow-list. -/
theorem c10_load_deduplicates (users : List Nat) (x : Nat) :
    ((load_whitelist (Store.valid users)).whitelist).count x ≤ 1 := by
  exact List.nodup_iff_count_le_one.mp (pySet_nodup users) x

/-! ## Trace-count lemmas -/

theorem disconnectCount_append (c : Nat) (l1 l2 : List Action) :
    disconnectCount c (l1 ++ l2)
      = disconnectCount c l1 + disconnectCount c l2 := by
  induction l1 with
  | nil => simp [disconnectCount]
  | cons a rest ih =>
    cases a <;> simp [disconnectCount, ih, Nat.add_assoc]

theorem credentialCount_append (l1 l2 : List Action) :
    credentialCount (l1 ++ l2)
      = credentialCount l1 + credentialCount l2 := by
  induction l1 with
  | nil => simp [credentialCount]
  | cons a rest ih =>
    cases a with
    | send t r => cases r <;> simp [credentialCount, ih, Nat.add_assoc,
        Nat.add_comm, Nat.add_left_comm]
    | editStatus r => simp [credentialCount, ih]
    | waitForTicket n => simp [credentialCount, ih]
    | sleepSecs n => simp [credentialCount, ih]
    | checkAuthorized => simp [credentialCount, ih]
    | disconnectClient c2 => simp [credentialCount, ih]

/-- The monitoring body itself never disconnects a client: only the
`finally` cleanup does. -/
theorem disconnectCount_monitorBody (c : Nat) (st : ManagerState) (u : Nat)
    (data : SessionRecord) (oc : MonitorOutcome) :
    disconnectCount c (monitorBody st u data oc) = 0 := by
  cases oc with
  | timeout =>
    cases h : dictGet u st.user_messages <;>
      simp [monitorBody, h, disconnectCount, disconnectCount_append]
  | resolved a df =>
    cases a <;> cases df <;> cases h : dictGet u st.user_messages <;>
      simp [monitorBody, h, disconnectCount, disconnectCount_append]
  | unexpectedError =>
    cases h : dictGet u st.user_messages <;>
      simp [monitorBody, h, disconnectCount, disconnectCount_append]

/-! ## C3: terminal cleanup invariant of the monitoring routine -/

/-- C3: whatever terminal outcome one (non-interleaved) monitoring run
reaches — delivery, timeout, authorization failure, delivery error or an
unexpected error — the run adds exactly one release of the record's
connection to the trace, and the record is gone from the table
afterwards. -/
theorem c3_terminal_cleanup (st : ManagerState) (u : Nat) (r : SessionRecord)
    (oc : MonitorOutcome) (cf : Bool)
    (h : dictGet u st.active_sessions = some r) :
    disconnectCount r.client (start_qr_monitoring st u oc cf).trace
      = disconnectCount r.client st.trace + 1
    ∧ dictGet u (start_qr_monitoring st u oc cf).active_sessions = none := by
  have hrun : start_qr_monitoring st u oc cf = monitorFinish st u r oc cf := by
    simp [start_qr_monitoring, h]
  rw [hrun]
  unfold monitorFinish
  constructor
  · rw [cleanup_session_trace]
    simp only [h]
    rw [disconnectCount_append, disconnectCount_append,
      disconnectCount_monitorBody]
    simp [disconnectCount]
  · rw [cleanup_session_active_sessions]
    exact dictGet_dictErase_self u _

/-- C3 witness: a concrete record with a timeout outcome. -/
theorem c3_terminal_cleanup_witness :
    dictGet 1 ([(1, (⟨100, 1000, 0, 10⟩ : SessionRecord))])
      = some ⟨100, 1000, 0, 10⟩
    ∧ (disconnectCount 100 (start_qr_monitoring
          ⟨[(1, ⟨100, 1000, 0, 10⟩)], [(1, 10)], []⟩ 1
          MonitorOutcome.timeout false).trace
        = disconnectCount 100 (([] : List Action)) + 1
      ∧ dictGet 1 (start_qr_monitoring
          ⟨[(1, ⟨100, 1000, 0, 10⟩)], [(1, 10)], []⟩ 1
          MonitorOutcome.timeout false).active_sessions = none) :=
  ⟨by decide, c3_terminal_cleanup ⟨[(1, ⟨100, 1000, 0, 10⟩)], [(1, 10)], []⟩
    1 ⟨100, 1000, 0, 10⟩ MonitorOutcome.timeout false (by decide)⟩

/-! ## C5: timeout path -/

/-- C5: if the ticket does not resolve within the fixed 120-second wait
budget, the run waits with exactly that budget, sends the user the timeout
message, removes the record from the table, and a later status query for
the owner reports no active session. -/
theorem c5_timeout_path (wl : WLState) (st : ManagerState) (u m now : Nat)
    (r : SessionRecord) (cf : Bool)
    (hs : dictGet u st.active_sessions = some r)
    (hm : dictGet u st.user_messages = some m)
    (hw : is_allowed wl u = true) :
    Action.waitForTicket 120
        ∈ (start_qr_monitoring st u MonitorOutcome.timeout cf).trace
    ∧ Action.send m Reply.timeoutMsg
        ∈ (start_qr_monitoring st u MonitorOutcome.timeout cf).trace
    ∧ dictGet u (start_qr_monitoring st u
        MonitorOutcome.timeout cf).active_sessions = none
    ∧ cmd_check wl (start_qr_monitoring st u MonitorOutcome.timeout cf) u now
        = CheckReply.noSession := by
  have hrun : start_qr_monitoring st u MonitorOutcome.timeout cf
      = monitorFinish st u r MonitorOutcome.timeout cf := by
    simp [start_qr_monitoring, hs]
  have habs : dictGet u (start_qr_monitoring st u
      MonitorOutcome.timeout cf).active_sessions = none := by
    rw [hrun]
    unfold monitorFinish
    rw [cleanup_session_active_sessions]
    exact dictGet_dictErase_self u _
  have htr : (start_qr_monitoring st u MonitorOutcome.timeout cf).trace
      = (st.trace ++ monitorBody st u r MonitorOutcome.timeout)
        ++ [Action.disconnectClient r.client] := by
    rw [hrun]
    unfold monitorFinish
    rw [cleanup_session_trace]
    simp [hs]
  refine ⟨?_, ?_, habs, ?_⟩
  · rw [htr]
    simp [monitorBody, hm, qrWaitTimeoutSecs]
  · rw [htr]
    simp [monitorBody, hm]
  · simp [cmd_check, hw, habs]

/-- C5 witness at a concrete session. -/
theorem c5_timeout_path_witness :
    dictGet 1 ([(1, (⟨100, 1000, 0, 10⟩ : SessionRecord))])
      = some ⟨100, 1000, 0, 10⟩
    ∧ dictGet 1 ([(1, 10)]) = some 10
    ∧ is_allowed ⟨[1], []⟩ 1 = true
    ∧ cmd_check ⟨[1], []⟩ (start_qr_monitoring
        ⟨[(1, ⟨100, 1000, 0, 10⟩)], [(1, 10)], []⟩ 1
        MonitorOutcome.timeout false) 1 121 = CheckReply.noSession :=
  ⟨by decide, by decide, by decide,
    (c5_timeout_path ⟨[1], []⟩ ⟨[(1, ⟨100, 1000, 0, 10⟩)], [(1, 10)], []⟩
      1 10 121 ⟨100, 1000, 0, 10⟩ false (by decide) (by decide)
      (by decide)).2.2.2⟩

/-! ## C7: settling delay, authorization re-check, failure path -/

/-- C7: when the ticket resolves but the connection is still unauthorized
after the settling delay, the run's trace is exactly: initial status
message, the 120 s-bounded wait, the scanned status edit, the fixed
3-second settling sleep, the authorization re-check, the
confirm-login-on-device failure message, and the cleanup disconnect.  No
credential material is sent, and the record is gone afterwards. -/
theorem c7_auth_incomplete (st : ManagerState) (u : Nat) (r : SessionRecord)
    (df cf : Bool) (h : dictGet u st.active_sessions = some r) :
    (start_qr_monitoring st u (MonitorOutcome.resolved false df) cf).trace
      = st.trace ++
        [Action.send r.message Reply.waitingScan,
         Action.waitForTicket 120,
         Action.editStatus Reply.scannedChecking,
         Action.sleepSecs 3,
         Action.checkAuthorized,
         Action.editStatus Reply.authIncomplete,
         Action.disconnectClient r.client]
    ∧ credentialCount (start_qr_monitoring st u
        (MonitorOutcome.resolved false df) cf).trace
      = credentialCount st.trace
    ∧ dictGet u (start_qr_monitoring st u
        (MonitorOutcome.resolved false df) cf).active_sessions = none := by
  have hrun : start_qr_monitoring st u (MonitorOutcome.resolved false df) cf
      = monitorFinish st u r (MonitorOutcome.resolved false df) cf := by
    simp [start_qr_monitoring, h]
  have htr : (start_qr_monitoring st u
      (MonitorOutcome.resolved false df) cf).trace
      = st.trace ++
        [Action.send r.message Reply.waitingScan,
         Action.waitForTicket 120,
         Action.editStatus Reply.scannedChecking,
         Action.sleepSecs 3,
         Action.checkAuthorized,
         Action.editStatus Reply.authIncomplete,
         Action.disconnectClient r.client] := by
    rw [hrun]
    unfold monitorFinish
    rw [cleanup_session_trace]
    simp [h, monitorBody, qrWaitTimeoutSecs, settlingDelaySecs]
  refine ⟨htr, ?_, ?_⟩
  · rw [htr, credentialCount_append]
    simp [credentialCount]
  · rw [hrun]
    unfold monitorFinish
    rw [cleanup_session_active_sessions]
    exact dictGet_dictErase_self u _

/-- C7 witness at a concrete session. -/
theorem c7_auth_incomplete_witness :
    dictGet 1 ([(1, (⟨100, 1000, 0, 10⟩ : SessionRecord))])
      = some ⟨100, 1000, 0, 10⟩
    ∧ dictGet 1 (start_qr_monitoring
        ⟨[(1, ⟨100, 1000, 0, 10⟩)], [(1, 10)], []⟩ 1
        (MonitorOutcome.resolved false false) false).active_sessions
      = none :=
  ⟨by decide,
    (c7_auth_incomplete ⟨[(1, ⟨100, 1000, 0, 10⟩)], [(1, 10)], []⟩ 1
      ⟨100, 1000, 0, 10⟩ false false (by decide)).2.2⟩

/-! ## C2: displacement on a second `create_qr_session` -/

/-- C2 counterexample to the claim as stated: owner 1 has a session
(client 100); a second `create_qr_session` fails at handshake-begin; after
the call returns the table still holds the old, displaced record. -/
theorem c2_counterexample :
    (create_qr_session
        (create_qr_session ⟨[], [], []⟩ 1 10 100 1000 0 false true).1
        1 11 200 2000 5 false false).2 = false
    ∧ dictGet 1 (create_qr_session
        (create_qr_session ⟨[], [], []⟩ 1 10 100 1000 0 false true).1
        1 11 200 2000 5 false false).1.active_sessions
      = some ⟨100, 1000, 0, 10⟩ := by
  constructor
  · rfl
  · rfl

/-- C2 amended: a second `create_qr_session` for an owner with a live
record first releases the old record's connection (exactly one release is
recorded, whether handshake-begin later succeeds or fails); when
handshake-begin succeeds the insertion displaces the old record, so the
table then holds exactly the new record; when handshake-begin fails the
old — now disconnected — record remains in the table. -/
theorem c2_amended_displacement (st : ManagerState) (u m c t now : Nat)
    (r : SessionRecord) (odf : Bool)
    (h : dictGet u st.active_sessions = some r) :
    disconnectCount r.client
        (create_qr_session st u m c t now odf true).1.trace
      = disconnectCount r.client st.trace + 1
    ∧ disconnectCount r.client
        (create_qr_session st u m c t now odf false).1.trace
      = disconnectCount r.client st.trace + 1
    ∧ dictGet u (create_qr_session st u m c t now odf
        true).1.active_sessions = some ⟨c, t, now, m⟩
    ∧ (create_qr_session st u m c t now odf false).2 = false
    ∧ dictGet u (create_qr_session st u m c t now odf
        false).1.active_sessions = some r := by
  refine ⟨?_, ?_, ?_, ?_, ?_⟩
  · cases odf <;>
      simp [create_qr_session, h, disconnect, disconnectCount_append,
        disconnectCount]
  · cases odf <;>
      simp [create_qr_session, h, disconnect, disconnectCount_append,
        disconnectCount]
  · cases odf <;>
      simp [create_qr_session, h, disconnect, dictGet_dictSet_self]
  · cases odf <;> simp [create_qr_session, h, disconnect]
  · cases odf <;> simp [create_qr_session, h, disconnect]

/-- C2 amended witness at a concrete state. -/
theorem c2_amended_displacement_witness :
    dictGet 1 ([(1, (⟨100, 1000, 0, 10⟩ : SessionRecord))])
      = some ⟨100, 1000, 0, 10⟩
    ∧ dictGet 1 (create_qr_session
        ⟨[(1, ⟨100, 1000, 0, 10⟩)], [(1, 10)], []⟩
        1 11 200 2000 5 false false).1.active_sessions
      = some ⟨100, 1000, 0, 10⟩ :=
  ⟨by decide,
    (c2_amended_displacement ⟨[(1, ⟨100, 1000, 0, 10⟩)], [(1, 10)], []⟩
      1 11 200 2000 5 ⟨100, 1000, 0, 10⟩ false (by decide)).2.2.2.2⟩

/-! ## C1: a displaced monitoring task's cleanup acts on the new session -/

/-- C1, evaluated at the failing input: owner 1 creates session A
(client 100, ticket 1000), then a second `create_qr_session` installs
session B (client 200).  When session A's still-running monitoring task —
which captured A's record at its start — wakes with a timeout, its
`finally` cleanup is keyed by the owner only: it disconnects session B's
client and deletes B's record from the table.  The old task does *not*
exit without side effects on the new session. -/
theorem c1_stale_task_destroys_new_session :
    dictGet 1 (monitorFinish
        (create_qr_session
          (create_qr_session ⟨[], [], []⟩ 1 10 100 1000 0 false true).1
          1 11 200 2000 5 false true).1
        1 ⟨100, 1000, 0, 10⟩ MonitorOutcome.timeout false).active_sessions
      = none
    ∧ disconnectCount 200 (monitorFinish
        (create_qr_session
          (create_qr_session ⟨[], [], []⟩ 1 10 100 1000 0 false true).1
          1 11 200 2000 5 false true).1
        1 ⟨100, 1000, 0, 10⟩ MonitorOutcome.timeout false).trace = 1 := by
  constructor
  · rfl
  · rfl

/-! ## C6: admission control -/

theorem handleCommand_mgr_eq (adminId : Nat) (wl : WLState)
    (mgr : ManagerState) (user_id : Nat) (text : List Char) (now : Nat) :
    (handleCommand adminId wl mgr user_id text now).mgr = mgr := by
  unfold handleCommand
  repeat' split
  all_goals first
  | rfl
  | simp [apply_ite DispatchResult.mgr]

theorem handleCommand_wl_eq_of_ne (adminId : Nat) (wl : WLState)
    (mgr : ManagerState) (user_id : Nat) (text : List Char) (now : Nat)
    (h : user_id ≠ adminId) :
    (handleCommand adminId wl mgr user_id text now).wl = wl := by
  have hadm : is_admin adminId user_id = false := by
    simp [is_admin, h]
  unfold handleCommand
  simp only [hadm, Bool.false_eq_true, if_false]
  repeat' split
  all_goals rfl

theorem handleCommand_no_debug_of_ne (adminId : Nat) (wl : WLState)
    (mgr : ManagerState) (user_id : Nat) (text : List Char) (now : Nat)
    (h : user_id ≠ adminId) :
    (∀ c, BotReply.debugInfo c
        ∉ (handleCommand adminId wl mgr user_id text now).replies)
    ∧ BotReply.debugNoSession
        ∉ (handleCommand adminId wl mgr user_id text now).replies := by
  have hadm : is_admin adminId user_id = false := by
    simp [is_admin, h]
  unfold handleCommand
  simp only [hadm, Bool.false_eq_true, if_false]
  constructor
  · intro c
    repeat' split
    all_goals simp
  · repeat' split
    all_goals simp

theorem process_message_no_debug_of_ne (adminId now user_id : Nat)
    (wl : WLState) (mgr : ManagerState) (text : List Char)
    (h : user_id ≠ adminId) :
    (∀ c, BotReply.debugInfo c
        ∉ (process_message adminId wl mgr user_id text now).replies)
    ∧ BotReply.debugNoSession
        ∉ (process_message adminId wl mgr user_id text now).replies := by
  unfold process_message
  split
  · exact handleCommand_no_debug_of_ne adminId wl mgr user_id text now h
  split
  · exact handleCommand_no_debug_of_ne adminId wl mgr user_id text now h
  · simp

/-- C6: for an identity outside the allow-list, every command other than
the two public ones — and every non-command message — is answered with the
access-denied message alone, mutating neither the allow-list nor the
session table; no incoming message ever mutates the session table; and
only the configured admin identity can mutate the allow-list or receive
the diagnostic (`/debug`) replies. -/
theorem c6_admission (adminId now : Nat) (wl : WLState) (mgr : ManagerState) :
    (∀ (user_id : Nat) (text : List Char),
      user_id ∉ wl.whitelist →
      commandOf text ≠ some ("start".toList) →
      commandOf text ≠ some ("help".toList) →
      process_message adminId wl mgr user_id text now
        = ⟨wl, mgr, [BotReply.accessDenied]⟩)
    ∧ (∀ (user_id : Nat) (text : List Char),
      (process_message adminId wl mgr user_id text now).mgr = mgr)
    ∧ (∀ (user_id : Nat) (text : List Char),
      (process_message adminId wl mgr user_id text now).wl.whitelist
        ≠ wl.whitelist → user_id = adminId)
    ∧ (∀ (user_id : Nat) (text : List Char) (c : Nat),
      (BotReply.debugInfo c
          ∈ (process_message adminId wl mgr user_id text now).replies
        ∨ BotReply.debugNoSession
          ∈ (process_message adminId wl mgr user_id text now).replies)
      → user_id = adminId) := by
  refine ⟨?_, ?_, ?_, ?_⟩
  · intro user_id text hmem h1 h2
    have hpub : is_public_command text = false := by
      unfold is_public_command
      cases hc : commandOf text with
      | none => rfl
      | some cmd =>
        rw [hc] at h1 h2
        simp only [ne_eq, Option.some.injEq] at h1 h2
        simp only [decide_eq_false_iff_not]
        intro hor
        rcases hor with hh | hh
        · exact h1 hh
        · exact h2 hh
    have hall : is_allowed wl user_id = false := by
      simp [is_allowed, hmem]
    simp [process_message, hpub, hall]
  · intro user_id text
    unfold process_message
    split
    · exact handleCommand_mgr_eq adminId wl mgr user_id text now
    split
    · exact handleCommand_mgr_eq adminId wl mgr user_id text now
    · rfl
  · intro user_id text hne
    by_contra hadm
    apply hne
    unfold process_message
    split
    · rw [handleCommand_wl_eq_of_ne adminId wl mgr user_id text now hadm]
    split
    · rw [handleCommand_wl_eq_of_ne adminId wl mgr user_id text now hadm]
    · rfl
  · intro user_id text c hin
    by_contra hadm
    rcases hin with hin | hin
    · exact (process_message_no_debug_of_ne adminId now user_id wl mgr
        text hadm).1 c hin
    · exact (process_message_no_debug_of_ne adminId now user_id wl mgr
        text hadm).2 hin

/-- C6 witness: identity 5 is not on allow-list `[7]`; `/check` from it is
answered with the access-denied message alone and changes nothing. -/
theorem c6_admission_witness :
    process_message 99 ⟨[7], []⟩ ⟨[], [], []⟩ 5 ("/check".toList) 0
      = ⟨⟨[7], []⟩, ⟨[], [], []⟩, [BotReply.accessDenied]⟩ :=
  (c6_admission 99 0 ⟨[7], []⟩ ⟨[], [], []⟩).1 5 ("/check".toList)
    (by decide) (by decide) (by decide)

end Ses
